import Mathlib

/-!
Verification of the shape-area example of `src/principles/solid.js`.

The file embeds the factory functions `circle`, `square`, `cubo`, the
aggregators `areaCalculator` and `volumeCalculator`, and the presenter
`sumCalculatorOputter` as Lean definitions over real numbers, and proves
the specified properties about them.  JavaScript numbers are modelled as
real numbers; a method call on a value lacking that method is modelled by
the `Except` error channel, mirroring the TypeError the runtime raises.
-/

noncomputable section

/-- Runtime error raised when a method is invoked on a value that does not
have it, as happens when `areaCalculator.sum` calls `shape.calculate()` on
an element without a `calculate` method. -/
inductive JSError where
  | typeMismatch

/-- A shape produced by one of the three factory functions of
`solid.js`: `circle(radius)`, `square(length)`, `cubo(length)`. -/
inductive Shape where
  | circle (radius : ℝ)
  | square (length : ℝ)
  | cubo (length : ℝ)

/-- The `area` method of each factory prototype:
circle has `Math.PI * Math.pow(args.radius, 2)`,
square has `Math.pow(args.length, 2)`,
cubo has `Math.pow(args.length, 2)`. -/
def Shape.area : Shape → ℝ
  | .circle radius => Real.pi * radius ^ 2
  | .square length => length ^ 2
  | .cubo length => length ^ 2

/-- The `volume` method: only `cubo` installs one (through
`solidShapeInterface`), computing `Math.pow(args.length, 3)`; circle and
square have no `volume` method, modelled as `none`. -/
def Shape.volume : Shape → Option ℝ
  | .circle _ => none
  | .square _ => none
  | .cubo length => some (length ^ 3)

/-- The `calculate` method installed by `manageShapeInterface`:
for circle and square it is `() => basics.area()`, and for cubo it is
`() => basics.area() + complex.volume()`. -/
def Shape.calculate : Shape → ℝ
  | .circle radius => (Shape.circle radius).area
  | .square length => (Shape.square length).area
  | .cubo length => (Shape.cubo length).area + length ^ 3

/-- A value handed to the aggregator: either a shape built by one of the
three factories (hence carrying a `calculate` method) or any other value,
which lacks that capability. -/
inductive JSValue where
  | shape (s : Shape)
  | nonShape

/-- Invoking `calculate()` on an aggregated value: defined for shapes,
a TypeError (modelled as `none`) otherwise. -/
def JSValue.calculate : JSValue → Option ℝ
  | .shape s => some s.calculate
  | .nonShape => none

/-- The loop body of `areaCalculator.sum`:
`const area = []; for (shape of this.shapes) { area.push(shape.calculate()); }`.
Pushing appends at the end; a missing `calculate` method aborts the loop
with a TypeError. -/
def sumLoop : List JSValue → List ℝ → Except JSError (List ℝ)
  | [], area => Except.ok area
  | v :: rest, area =>
      match v.calculate with
      | none => Except.error JSError.typeMismatch
      | some x => sumLoop rest (area ++ [x])

/-- The full body of the shared `sum` method: run the loop, then
`return area.reduce((v, c) => (c += v), 0)`.  The reduce callback returns
`c + v` with initial accumulator `0`. -/
def calcSum (shapes : List JSValue) : Except JSError ℝ :=
  match sumLoop shapes [] with
  | Except.error e => Except.error e
  | Except.ok area => Except.ok (area.foldl (fun v c => c + v) 0)

/-- State of an object returned by the `areaCalculator` factory: its
`shapes` field. -/
structure AreaCalculator where
  shapes : List JSValue

/-- The `areaCalculator` factory: stores the given sequence in the
`shapes` field of a fresh object whose prototype holds `sum`. -/
def areaCalculator (s : List JSValue) : AreaCalculator := ⟨s⟩

/-- The `sum` method of `areaCalculator` objects. -/
def AreaCalculator.sum (c : AreaCalculator) : Except JSError ℝ :=
  calcSum c.shapes

/-- State of an object returned by the `volumeCalculator` factory. -/
structure VolumeCalculator where
  shapes : List JSValue

/-- The `volumeCalculator` factory: it copies the prototype of
`areaCalculator` objects (so it shares the very same `sum` function) and
stores the given sequence in `shapes`. -/
def volumeCalculator (s : List JSValue) : VolumeCalculator := ⟨s⟩

/-- The `sum` method inherited unchanged by `volumeCalculator` objects:
the identical shared function `calcSum` applied to this object's shapes. -/
def VolumeCalculator.sum (c : VolumeCalculator) : Except JSError ℝ :=
  calcSum c.shapes

/-- Either kind of calculator object, as the presenter accepts both
(`output` wraps `areas`, `output2` wraps `volume` in the source). -/
inductive Calculator where
  | area (c : AreaCalculator)
  | volume (c : VolumeCalculator)

/-- Duck-typed dispatch of `calculator.sum()`. -/
def Calculator.sum : Calculator → Except JSError ℝ
  | .area c => c.sum
  | .volume c => c.sum

/-- Output produced by a presenter method.  The exact text surrounding a
number is abstracted away: only which template was used and which number
the template embeds are tracked.  `hamlText` and `jadeText` stand for the
constant placeholder strings. -/
inductive PresentedOutput where
  | hamlText
  | jadeText
  | jsonOf (x : ℝ)
  | htmlOf (x : ℝ)

/-- State of an object returned by `sumCalculatorOputter`: its
`calculator` field. -/
structure SumCalculatorOputter where
  calculator : Calculator

/-- The `sumCalculatorOputter` factory. -/
def sumCalculatorOputter (a : Calculator) : SumCalculatorOputter := ⟨a⟩

/-- The `JSON()` method: `JSON.stringify(this.calculator.sum())`; a failing
sum propagates its error. -/
def SumCalculatorOputter.JSON (p : SumCalculatorOputter) :
    Except JSError PresentedOutput :=
  match p.calculator.sum with
  | Except.error e => Except.error e
  | Except.ok x => Except.ok (PresentedOutput.jsonOf x)

/-- The `HAML()` method: returns the constant placeholder text and never
touches the calculator. -/
def SumCalculatorOputter.HAML (_ : SumCalculatorOputter) : PresentedOutput :=
  PresentedOutput.hamlText

/-- The `HTML()` method: a markup template embedding
`this.calculator.sum()`; a failing sum propagates its error. -/
def SumCalculatorOputter.HTML (p : SumCalculatorOputter) :
    Except JSError PresentedOutput :=
  match p.calculator.sum with
  | Except.error e => Except.error e
  | Except.ok x => Except.ok (PresentedOutput.htmlOf x)

/-- The `JADE()` method: returns the constant placeholder text. -/
def SumCalculatorOputter.JADE (_ : SumCalculatorOputter) : PresentedOutput :=
  PresentedOutput.jadeText

/-- State-passing embedding of the `sum` method call on an
`areaCalculator` object.  The method body reads `this.shapes` and local
variables only and assigns no field of the receiver or of the aggregated
shapes (the only writes are to the local `area` array and the sloppy-mode
global loop variable, neither reachable from the inputs), so the post-state
is the receiver unchanged. -/
def AreaCalculator.sumSt (c : AreaCalculator) :
    Except JSError ℝ × AreaCalculator :=
  (calcSum c.shapes, c)

/-- State-passing embedding of the inherited `sum` method call on a
`volumeCalculator` object; same body as `AreaCalculator.sumSt`. -/
def VolumeCalculator.sumSt (c : VolumeCalculator) :
    Except JSError ℝ × VolumeCalculator :=
  (calcSum c.shapes, c)

/-- State-passing embedding of `JSON()`: the body reads
`this.calculator` and returns text, writing nothing. -/
def SumCalculatorOputter.JSONSt (p : SumCalculatorOputter) :
    Except JSError PresentedOutput × SumCalculatorOputter :=
  (p.JSON, p)

/-- State-passing embedding of `HAML()`. -/
def SumCalculatorOputter.HAMLSt (p : SumCalculatorOputter) :
    PresentedOutput × SumCalculatorOputter :=
  (p.HAML, p)

/-- State-passing embedding of `HTML()`. -/
def SumCalculatorOputter.HTMLSt (p : SumCalculatorOputter) :
    Except JSError PresentedOutput × SumCalculatorOputter :=
  (p.HTML, p)

/-- State-passing embedding of `JADE()`. -/
def SumCalculatorOputter.JADESt (p : SumCalculatorOputter) :
    PresentedOutput × SumCalculatorOputter :=
  (p.JADE, p)

/-! ### Helper lemmas -/

/-- Unfolding of a `sum` call on a freshly built `areaCalculator`. -/
lemma areaCalculator_sum_def (s : List JSValue) :
    (areaCalculator s).sum = calcSum s := rfl

/-- Unfolding of a `sum` call on a freshly built `volumeCalculator`. -/
lemma volumeCalculator_sum_def (s : List JSValue) :
    (volumeCalculator s).sum = calcSum s := rfl

/-- On a list consisting only of factory-built shapes the loop of `sum`
collects every contribution in order and never errors. -/
lemma sumLoop_shapes (l : List Shape) (acc : List ℝ) :
    sumLoop (l.map JSValue.shape) acc =
      Except.ok (acc ++ l.map Shape.calculate) := by
  induction l generalizing acc with
  | nil => simp [sumLoop]
  | cons h t ih =>
      simp [sumLoop, JSValue.calculate, ih]

/-- The reduce step `area.reduce((v, c) => (c += v), 0)` computes the
arithmetic sum of the collected contributions. -/
lemma foldl_add_eq_sum (l : List ℝ) (acc : ℝ) :
    l.foldl (fun v c => c + v) acc = acc + l.sum := by
  induction l generalizing acc with
  | nil => simp
  | cons h t ih =>
      simp only [List.foldl_cons, List.sum_cons, ih]
      ring

/-- `sum` on a list of factory-built shapes returns the arithmetic sum of
their `calculate()` results. -/
lemma calcSum_shapes (l : List Shape) :
    calcSum (l.map JSValue.shape) = Except.ok ((l.map Shape.calculate).sum) := by
  simp [calcSum, sumLoop_shapes, foldl_add_eq_sum]

/-- If some aggregated value lacks the `calculate` capability the loop of
`sum` aborts with a TypeError, whatever it has accumulated so far. -/
lemma sumLoop_error (vals : List JSValue) (acc : List ℝ)
    (h : ∃ v ∈ vals, v.calculate = none) :
    sumLoop vals acc = Except.error JSError.typeMismatch := by
  induction vals generalizing acc with
  | nil => simp at h
  | cons v rest ih =>
      rcases h with ⟨w, hw, hnone⟩
      rcases List.mem_cons.mp hw with rfl | hmem
      · simp [sumLoop, hnone]
      · cases hv : v.calculate with
        | none => simp [sumLoop, hv]
        | some x => simp [sumLoop, hv, ih _ ⟨w, hmem, hnone⟩]

/-! ### Claim theorems -/

/-- C1: for every sequence of shapes built from the circle, square and
cubo factories, `areaCalculator(...).sum()` returns the arithmetic sum of
each element's own `calculate()`; in particular aggregating
`[circle(2), square(5), square(6)]` returns `4π + 25 + 36`. -/
theorem aggregate_sum_of_calculates :
    (∀ l : List Shape,
      (areaCalculator (l.map JSValue.shape)).sum =
        Except.ok ((l.map Shape.calculate).sum)) ∧
    (areaCalculator
        ([Shape.circle 2, Shape.square 5, Shape.square 6].map JSValue.shape)).sum =
      Except.ok (4 * Real.pi + 25 + 36) := by
  constructor
  · intro l
    rw [areaCalculator_sum_def]
    exact calcSum_shapes l
  · rw [areaCalculator_sum_def, calcSum_shapes]
    simp [Shape.calculate, Shape.area]
    ring

/-- C2: for every non-negative real dimension, circle area is `π·r²`,
square area is `s²`, cubo area is `s²` and cubo volume is `s³`. -/
theorem shape_formulas (r : ℝ) (h : 0 ≤ r) :
    (Shape.circle r).area = Real.pi * r ^ 2 ∧
    (Shape.square r).area = r ^ 2 ∧
    (Shape.cubo r).area = r ^ 2 ∧
    (Shape.cubo r).volume = some (r ^ 3) :=
  ⟨rfl, rfl, rfl, rfl⟩

/-- Witness for C2 at the concrete dimension 2. -/
theorem shape_formulas_witness :
    (0 : ℝ) ≤ 2 ∧
    ((Shape.circle 2).area = Real.pi * 2 ^ 2 ∧
     (Shape.square 2).area = 2 ^ 2 ∧
     (Shape.cubo 2).area = 2 ^ 2 ∧
     (Shape.cubo 2).volume = some (2 ^ 3)) :=
  ⟨by norm_num, shape_formulas 2 (by norm_num)⟩

/-- C3: aggregating the empty sequence returns exactly 0. -/
theorem aggregate_empty : (areaCalculator []).sum = Except.ok (0 : ℝ) := by
  rw [areaCalculator_sum_def]
  simp [calcSum, sumLoop]

/-- C4: whenever the input sequence contains an element lacking the
shape capability, `sum()` fails with a type-mismatch error instead of
skipping the element or returning a partial sum. -/
theorem aggregate_nonShape_fails (vals : List JSValue)
    (h : ∃ v ∈ vals, v.calculate = none) :
    (areaCalculator vals).sum = Except.error JSError.typeMismatch := by
  rw [areaCalculator_sum_def]
  simp [calcSum, sumLoop_error vals [] h]

/-- Witness for C4: aggregating a shape followed by a non-shape fails. -/
theorem aggregate_nonShape_fails_witness :
    (∃ v ∈ [JSValue.shape (Shape.circle 1), JSValue.nonShape],
        v.calculate = none) ∧
    (areaCalculator [JSValue.shape (Shape.circle 1), JSValue.nonShape]).sum =
      Except.error JSError.typeMismatch := by
  have h : ∃ v ∈ [JSValue.shape (Shape.circle 1), JSValue.nonShape],
      v.calculate = none := ⟨JSValue.nonShape, by simp, rfl⟩
  exact ⟨h, aggregate_nonShape_fails _ h⟩

/-- C5: a cube contributes its area plus its volume,
`cubo(s).calculate() = s² + s³`, while flat shapes contribute exactly
their area. -/
theorem calculate_contribution (r s t : ℝ) :
    (Shape.cubo t).calculate = t ^ 2 + t ^ 3 ∧
    (Shape.circle r).calculate = (Shape.circle r).area ∧
    (Shape.square s).calculate = (Shape.square s).area :=
  ⟨rfl, rfl, rfl⟩

/-- C7: every operation leaves its inputs unchanged and is repeatable:
the calculators and the presenter are identical after any method call, and
calling the same method again returns an equal result (the total is
recomputed, never cached). -/
theorem operations_pure (c : AreaCalculator) (v : VolumeCalculator)
    (p : SumCalculatorOputter) :
    c.sumSt.2 = c ∧ (c.sumSt.2).sumSt.1 = c.sumSt.1 ∧
    v.sumSt.2 = v ∧ (v.sumSt.2).sumSt.1 = v.sumSt.1 ∧
    p.JSONSt.2 = p ∧ (p.JSONSt.2).JSONSt.1 = p.JSONSt.1 ∧
    p.HAMLSt.2 = p ∧ (p.HAMLSt.2).HAMLSt.1 = p.HAMLSt.1 ∧
    p.HTMLSt.2 = p ∧ (p.HTMLSt.2).HTMLSt.1 = p.HTMLSt.1 ∧
    p.JADESt.2 = p ∧ (p.JADESt.2).JADESt.1 = p.JADESt.1 :=
  ⟨rfl, rfl, rfl, rfl, rfl, rfl, rfl, rfl, rfl, rfl, rfl, rfl⟩

/-- C8: the factories and their area and volume computations are total on
every real dimension, zero and negative included: they always return the
formula value and the cubo volume is always defined. -/
theorem shapes_total_on_all_reals (r : ℝ) :
    ((Shape.cubo r).volume).isSome = true ∧
    (Shape.circle r).area = Real.pi * r ^ 2 ∧
    (Shape.square r).area = r ^ 2 ∧
    (Shape.cubo r).area = r ^ 2 ∧
    (Shape.cubo r).volume = some (r ^ 3) ∧
    (Shape.circle r).calculate = Real.pi * r ^ 2 ∧
    (Shape.square r).calculate = r ^ 2 ∧
    (Shape.cubo r).calculate = r ^ 2 + r ^ 3 :=
  ⟨rfl, rfl, rfl, rfl, rfl, rfl, rfl, rfl⟩

/-- C9: `volumeCalculator` is behaviourally substitutable for
`areaCalculator`: on every sequence of values the inherited `sum` returns
the same result. -/
theorem volumeCalculator_substitutable (s : List JSValue) :
    (volumeCalculator s).sum = (areaCalculator s).sum := rfl

/-- C10: aggregation is a homomorphism over concatenation: the sum of a
concatenated shape sequence is the sum of the two parts. -/
theorem aggregate_concat_hom (xs ys : List Shape) (a b : ℝ)
    (ha : (areaCalculator (xs.map JSValue.shape)).sum = Except.ok a)
    (hb : (areaCalculator (ys.map JSValue.shape)).sum = Except.ok b) :
    (areaCalculator ((xs ++ ys).map JSValue.shape)).sum = Except.ok (a + b) := by
  rw [areaCalculator_sum_def, calcSum_shapes] at ha hb ⊢
  have ha2 : (xs.map Shape.calculate).sum = a := Except.ok.inj ha
  have hb2 : (ys.map Shape.calculate).sum = b := Except.ok.inj hb
  rw [← ha2, ← hb2]
  simp

/-- Witness for C10 at the concrete split `[square 1] ++ [square 2]`. -/
theorem aggregate_concat_hom_witness :
    (areaCalculator ([Shape.square 1].map JSValue.shape)).sum = Except.ok 1 ∧
    (areaCalculator ([Shape.square 2].map JSValue.shape)).sum = Except.ok 4 ∧
    (areaCalculator (([Shape.square 1] ++ [Shape.square 2]).map JSValue.shape)).sum =
      Except.ok ((1 : ℝ) + 4) := by
  have h1 : (areaCalculator ([Shape.square 1].map JSValue.shape)).sum =
      Except.ok (1 : ℝ) := by
    rw [areaCalculator_sum_def, calcSum_shapes]
    norm_num [Shape.calculate, Shape.area]
  have h2 : (areaCalculator ([Shape.square 2].map JSValue.shape)).sum =
      Except.ok (4 : ℝ) := by
    rw [areaCalculator_sum_def, calcSum_shapes]
    norm_num [Shape.calculate, Shape.area]
  exact ⟨h1, h2, aggregate_concat_hom _ _ _ _ h1 h2⟩

end
